import Mathlib

/-!
Verification of the CWA weather proxy backend (src/server.js).

The single request handler `getWeatherByCity` is embedded as a pure Lean
function. JavaScript dynamic behaviour is made explicit:

* absent object properties / `undefined` become `Option`;
* a thrown `TypeError` from dereferencing `undefined`/`null` becomes
  `Except Unit` inside the `try` block (`.error ()` = an exception that the
  surrounding `catch` receives, where it carries no `.response` field);
* an exception thrown inside the `catch` block itself (which would escape the
  handler) is modelled by the handler returning `none` for the response;
* the outbound axios call is an oracle `UpstreamQuery → AxiosResult`, and the
  handler also returns the list of upstream queries it issued, so "exactly one
  upstream call" and "no network call" are provable statements.
-/

/-- The `time[i].parameter` object of the upstream payload: `\x7bparameterName\x7d`. -/
structure TimeParameter where
  parameterName : String
deriving Repr, DecidableEq

/-- One entry of a weather element's `time` array. -/
structure TimeEntry where
  startTime : String
  endTime : String
  parameter : TimeParameter
deriving Repr, DecidableEq

/-- One entry of `locationData.weatherElement`. -/
structure WeatherElement where
  elementName : String
  time : List TimeEntry
deriving Repr, DecidableEq

/-- The `records.location[k]` object. -/
structure LocationData where
  locationName : String
  weatherElement : List WeatherElement
deriving Repr, DecidableEq

/-- The `records` object; `location` is `none` when the property is absent. -/
structure Records where
  datasetDescription : String
  location : Option (List LocationData)
deriving Repr, DecidableEq

/-- A successful upstream response body; `records` is `none` when absent. -/
structure UpstreamBody where
  records : Option Records
deriving Repr, DecidableEq

/-- The query parameters of one outbound GET to the CWA API. -/
structure UpstreamQuery where
  authorization : String
  locationName : String
deriving Repr, DecidableEq

/-- Body of an upstream non-success HTTP response (`error.response.data` as an
object); `message` is `none` when the property is absent. -/
structure ErrBody where
  message : Option String
deriving Repr, DecidableEq

/-- Outcome of the axios call: success with a parsed body; an HTTP error where
`error.response` is present (its `data` is `none` when the body is null); or a
transport failure where `error.response` is absent. -/
inductive AxiosResult where
  | success (body : UpstreamBody)
  | httpError (status : Nat) (data : Option ErrBody)
  | networkError (errMessage : String)
deriving Repr, DecidableEq

/-- One reshaped forecast slot (the `forecast` object built per time index). -/
structure Forecast where
  startTime : String
  endTime : String
  weather : String
  rain : String
  minTemp : String
  maxTemp : String
  comfort : String
  windSpeed : String
deriving Repr, DecidableEq

/-- The `weatherData` result: city name, update time, forecast slots. -/
structure WeatherData where
  city : String
  updateTime : String
  forecasts : List Forecast
deriving Repr, DecidableEq

/-- A JSON response body sent by the handler: either the success envelope
`\x7bsuccess: true, data\x7d` or an error envelope
`\x7berror, message, [details]\x7d`. -/
inductive RespBody where
  | success (data : WeatherData)
  | err (error : String) (message : String) (details : Option ErrBody)
deriving Repr, DecidableEq

/-- A response sent by `res.status(s).json(b)`: an HTTP status plus a JSON body. -/
structure HttpResponse where
  status : Nat
  body : RespBody
deriving Repr, DecidableEq

/-- The table `CITY_NAME_MAPPING` from src/server.js, in source order. -/
def CITY_NAME_MAPPING : List (String × String) :=
  [ ("taipei", "臺北市"),
    ("newtaipei", "新北市"),
    ("taoyuan", "桃園市"),
    ("taichung", "臺中市"),
    ("tainan", "臺南市"),
    ("kaohsiung", "高雄市") ]

/-- The valid city identifiers, i.e. `Object.keys(CITY_NAME_MAPPING)`. -/
def validCityIds : List String := CITY_NAME_MAPPING.map (fun p => p.1)

/-- Lookup `CITY_NAME_MAPPING[cityId]`: JavaScript object key lookup, `none` when the
key is absent (the JS value `undefined`). -/
def lookupCity (cityId : String) : Option String :=
  (CITY_NAME_MAPPING.find? (fun p => p.1 == cityId)).map (fun p => p.2)

/-- JavaScript `cityIdRaw.toLowerCase()` over the string's characters (ASCII
case mapping, which covers every key of the lookup table). -/
def jsToLowerCase (s : String) : String := String.mk (s.data.map Char.toLower)

/-- JavaScript `v || fallback` on an optional string: `undefined` and the empty
string are falsy. -/
def jsOrStr (v : Option String) (fallback : String) : String :=
  match v with
  | some s => if s = "" then fallback else s
  | none => fallback

/-- Dereferencing a property chain through a possibly-`undefined` value inside
the `try` block: `none` throws a `TypeError` that the `catch` receives. -/
def jsGet {α : Type} (x : Option α) : Except Unit α :=
  match x with
  | some v => .ok v
  | none => .error ()

/-- The body of one `switch (element.elementName)` dispatch: writes
`parameterName` into the slot field selected by the tag, appending a literal
`%` for `PoP`; unknown tags fall through and leave the slot unchanged. -/
def applyElement (fc : Forecast) (name : String) (pn : String) : Forecast :=
  if name = "Wx" then { fc with weather := pn }
  else if name = "PoP" then { fc with rain := pn ++ "%" }
  else if name = "MinT" then { fc with minTemp := pn }
  else if name = "MaxT" then { fc with maxTemp := pn }
  else if name = "CI" then { fc with comfort := pn }
  else if name = "WS" then { fc with windSpeed := pn }
  else fc

/-- Reading `element.time[i]`: indexing past the end yields `undefined`, and the
subsequent `.parameter` dereference throws. -/
def getTime (e : WeatherElement) (i : Nat) : Except Unit TimeEntry :=
  jsGet (e.time.get? i)

/-- The `forEach` over the weather elements at time index `i`, threading the
slot being filled: `element.time[i].parameter` throws when the index is
missing, otherwise the `switch` writes one field and iteration continues. -/
def forEachElems (i : Nat) (fc : Forecast) : List WeatherElement → Except Unit Forecast
  | [] => .ok fc
  | e :: es =>
    match e.time.get? i with
    | none => .error ()
    | some te => forEachElems i (applyElement fc e.elementName te.parameter.parameterName) es

/-- One iteration of the `for` loop at index `i`: build the initial slot from
`weatherElements[0].time[i]`, then run the `forEach` over all elements. -/
def buildForecast (elems : List WeatherElement) (i : Nat) : Except Unit Forecast :=
  match elems with
  | [] => .error ()
  | first :: _ =>
    match first.time.get? i with
    | none => .error ()
    | some t0 =>
      forEachElems i
        { startTime := t0.startTime, endTime := t0.endTime,
          weather := "", rain := "", minTemp := "", maxTemp := "",
          comfort := "", windSpeed := "" } elems

/-- Sequencing of fallible computations in source order (the `for` loop pushes
slots in index order and any throw aborts the whole `try` block). -/
def mapExcept {α β ε : Type} (f : α → Except ε β) : List α → Except ε (List β)
  | [] => .ok []
  | x :: xs =>
    match f x with
    | .error e => .error e
    | .ok y =>
      match mapExcept f xs with
      | .error e => .error e
      | .ok ys => .ok (y :: ys)

/-- Lines 70-131 of src/server.js: everything after a successful axios call,
inside the `try` block. `.error ()` is a thrown `TypeError`:
`records` absent makes `.location` throw, `location` absent makes `[0]`
throw, an empty `weatherElement` array makes `weatherElements[0].time`
throw. -/
def processSuccess (locationName : String) (body : UpstreamBody) :
    Except Unit HttpResponse :=
  match body.records with
  | none => .error ()
  | some records =>
    match records.location with
    | none => .error ()
    | some location =>
      match location.head? with
      | none =>
        .ok { status := 404,
              body := .err "查無資料" ("無法取得 " ++ locationName ++ " 天氣資料") none }
      | some locationData =>
        match locationData.weatherElement with
        | [] => .error ()
        | first :: restE =>
          match mapExcept (buildForecast (first :: restE))
              (List.range first.time.length) with
          | .error e => .error e
          | .ok forecasts =>
            .ok { status := 200,
                  body := .success
                    { city := locationData.locationName,
                      updateTime := records.datasetDescription,
                      forecasts := forecasts } }

/-- The generic 500 envelope sent when no `error.response` is present
(network failure, or a `TypeError` thrown inside the `try` block). -/
def genericServerError : HttpResponse :=
  { status := 500, body := .err "伺服器錯誤" "無法取得天氣資料，請稍後再試" none }

/-- The `if (error.response)` branch of the `catch` block. When the upstream
error body is null (`data = none`), `error.response.data.message` itself
throws inside the `catch`, so no response is produced (`none`). -/
def mapUpstreamError (status : Nat) (data : Option ErrBody) : Option HttpResponse :=
  match data with
  | none => none
  | some body =>
    some { status := status,
           body := .err "CWA API 錯誤"
             (jsOrStr body.message "無法取得天氣資料") (some body) }

/-- The full handler `getWeatherByCity`. Returns the response it sends (`none`
if an exception escapes the handler) and the list of upstream queries issued.
`apiKey` is `CWA_API_KEY` (`none` when the environment variable is unset). -/
def getWeatherByCity (cityIdRaw : String) (apiKey : Option String)
    (upstream : UpstreamQuery → AxiosResult) :
    Option HttpResponse × List UpstreamQuery :=
  let cityId := jsToLowerCase cityIdRaw
  let locationName := (lookupCity cityId).getD ""
  if locationName = "" then
    (some { status := 400,
            body := .err "無效的城市 ID"
              ("不支援查詢此城市: " ++ cityIdRaw ++ "，請使用 " ++
                String.intercalate ", " validCityIds) none }, [])
  else if apiKey.getD "" = "" then
    (some { status := 500,
            body := .err "伺服器設定錯誤" "請在 .env 檔案中設定 CWA_API_KEY" none }, [])
  else
    let query : UpstreamQuery :=
      { authorization := apiKey.getD "", locationName := locationName }
    match upstream query with
    | .success body =>
      match processSuccess locationName body with
      | .ok resp => (some resp, [query])
      | .error _ => (some genericServerError, [query])
    | .httpError status data => (mapUpstreamError status data, [query])
    | .networkError _ => (some genericServerError, [query])

/-- Serialize one forecast slot exactly as `JSON.stringify` orders the fields
built by the handler. -/
def renderForecast (f : Forecast) : String :=
  "\x7b\"startTime\":\"" ++ f.startTime ++ "\",\"endTime\":\"" ++ f.endTime ++
  "\",\"weather\":\"" ++ f.weather ++ "\",\"rain\":\"" ++ f.rain ++
  "\",\"minTemp\":\"" ++ f.minTemp ++ "\",\"maxTemp\":\"" ++ f.maxTemp ++
  "\",\"comfort\":\"" ++ f.comfort ++ "\",\"windSpeed\":\"" ++ f.windSpeed ++ "\"\x7d"

/-- Serialize a `WeatherData` (the `ForecastResult`) to its JSON text. -/
def renderWeatherData (wd : WeatherData) : String :=
  "\x7b\"city\":\"" ++ wd.city ++ "\",\"updateTime\":\"" ++ wd.updateTime ++
  "\",\"forecasts\":[" ++ String.intercalate "," (wd.forecasts.map renderForecast) ++
  "]\x7d"

/-- The `ForecastResult` carried by a handler response, when it is a success. -/
def extractData (r : Option HttpResponse) : Option WeatherData :=
  match r with
  | some { status := _, body := .success wd } => some wd
  | _ => none

/-! ### Reshaping machinery: a pure description of the per-index fold -/

/-- The string `element.time[i].parameter.parameterName` as a total function (only used
at indices that exist). -/
def pnAt (e : WeatherElement) (i : Nat) : String :=
  match e.time.get? i with
  | some t => t.parameter.parameterName
  | none => ""

/-- The entry `element.time[i]` as a total function (only used at indices that exist). -/
def timeAt (e : WeatherElement) (i : Nat) : TimeEntry :=
  (e.time.get? i).getD
    { startTime := "", endTime := "", parameter := { parameterName := "" } }

/-- The slot as initialised at the top of the `for` loop body. -/
def initSlot (t0 : TimeEntry) : Forecast :=
  { startTime := t0.startTime, endTime := t0.endTime,
    weather := "", rain := "", minTemp := "", maxTemp := "",
    comfort := "", windSpeed := "" }

/-- Pure version of the `forEach` over the weather elements at index `i`. -/
def foldElems (i : Nat) (init : Forecast) (elems : List WeatherElement) : Forecast :=
  elems.foldl (fun fc e => applyElement fc e.elementName (pnAt e i)) init

/-- The reshaped slots of a well-formed location record: for each index of the
first element's `time` array, the pure fold over all weather elements. -/
def reshapedForecasts (elems : List WeatherElement) (first : WeatherElement) :
    List Forecast :=
  (List.range first.time.length).map
    (fun i => foldElems i (initSlot (timeAt first i)) elems)

/-- A sample `Wx` weather element with two time entries. -/
def sampleWx : WeatherElement := { elementName := "Wx", time := [{ startTime := "s0", endTime := "e0", parameter := { parameterName := "晴" } }, { startTime := "s1", endTime := "e1", parameter := { parameterName := "雨" } }] }

/-- A sample `PoP` weather element with two time entries. -/
def samplePoP : WeatherElement := { elementName := "PoP", time := [{ startTime := "s0", endTime := "e0", parameter := { parameterName := "10" } }, { startTime := "s1", endTime := "e1", parameter := { parameterName := "20" } }] }

/-- A sample weather element with a tag outside the fixed six. -/
def sampleUnknown : WeatherElement := { elementName := "Zz", time := [{ startTime := "x0", endTime := "y0", parameter := { parameterName := "q" } }, { startTime := "x1", endTime := "y1", parameter := { parameterName := "r" } }] }

/-- A sample location record for 臺北市. -/
def sampleLocation : LocationData := { locationName := "臺北市", weatherElement := [sampleWx, samplePoP, sampleUnknown] }

/-- A sample `records` object with one location. -/
def sampleRecords : Records := { datasetDescription := "desc", location := some [sampleLocation] }

/-- A sample well-formed upstream body. -/
def sampleBody : UpstreamBody := { records := some sampleRecords }

/-! ### Basic facts about the lookup table and the handler's validation path -/

/-- Every location name stored in the lookup table is non-empty, so a
successful lookup always passes the `if (!locationName)` truthiness check. -/
theorem lookupCity_values_ne_empty (s nm : String)
    (h : lookupCity s = some nm) : nm ≠ "" := by
  unfold lookupCity at h
  cases hf : CITY_NAME_MAPPING.find? (fun p => p.1 == s) with
  | none => simp [hf] at h
  | some p =>
    simp only [hf, Option.map_some'] at h
    obtain h := Option.some.inj h
    have hmem : p ∈ CITY_NAME_MAPPING := List.mem_of_find?_eq_some hf
    subst h
    fin_cases hmem <;> decide

/-- Unfolding of the handler on a valid city with a non-empty credential:
exactly one upstream query is issued, built from the credential and the mapped
location name, and the rest of the pipeline dispatches on its outcome. -/
theorem getWeatherByCity_valid (cityIdRaw nm key : String)
    (hnm : lookupCity (jsToLowerCase cityIdRaw) = some nm) (hkey : key ≠ "")
    (upstream : UpstreamQuery → AxiosResult) :
    getWeatherByCity cityIdRaw (some key) upstream =
      (match upstream { authorization := key, locationName := nm } with
       | .success body =>
         match processSuccess nm body with
         | .ok resp => (some resp, [{ authorization := key, locationName := nm }])
         | .error _ => (some genericServerError, [{ authorization := key, locationName := nm }])
       | .httpError status data =>
         (mapUpstreamError status data, [{ authorization := key, locationName := nm }])
       | .networkError _ =>
         (some genericServerError, [{ authorization := key, locationName := nm }])) := by
  have hne := lookupCity_values_ne_empty _ _ hnm
  simp only [getWeatherByCity, hnm, Option.getD_some]
  simp [hne, hkey]

/-! ### C4, C5: input validation and credential check -/

/-- Claim C4: for every cityId whose lowercased form is not a key of the city
lookup table, the handler replies HTTP 400 InvalidCity; the message embeds the
original (non-lowercased) input and the comma-joined list of valid
identifiers, that list enumerates the six table keys, each exactly once
(it has no duplicates); and no upstream query is issued. -/
theorem c4_invalid_city (cityIdRaw : String) (apiKey : Option String)
    (upstream : UpstreamQuery → AxiosResult)
    (hmiss : lookupCity (jsToLowerCase cityIdRaw) = none) :
    getWeatherByCity cityIdRaw apiKey upstream =
      (some { status := 400,
              body := .err "無效的城市 ID"
                ("不支援查詢此城市: " ++ cityIdRaw ++ "，請使用 " ++
                  String.intercalate ", " validCityIds) none }, [])
    ∧ (∃ pre post : String,
        "不支援查詢此城市: " ++ cityIdRaw ++ "，請使用 " ++
          String.intercalate ", " validCityIds = pre ++ cityIdRaw ++ post)
    ∧ validCityIds = ["taipei", "newtaipei", "taoyuan", "taichung", "tainan", "kaohsiung"]
    ∧ validCityIds.Nodup := by
  refine ⟨?_, ⟨"不支援查詢此城市: ", "，請使用 " ++ String.intercalate ", " validCityIds, ?_⟩,
    by decide, by decide⟩
  · simp [getWeatherByCity, hmiss]
  · simp [String.append_assoc]

/-- Witness for C4 at the concrete invalid input `"UnknownCity"`. -/
theorem c4_invalid_city_witness :
    getWeatherByCity "UnknownCity" none (fun _ => .networkError "x") =
      (some { status := 400,
              body := .err "無效的城市 ID"
                ("不支援查詢此城市: " ++ "UnknownCity" ++ "，請使用 " ++
                  String.intercalate ", " validCityIds) none }, []) :=
  (c4_invalid_city "UnknownCity" none (fun _ => .networkError "x") (by decide)).1

/-- Claim C5: with the credential unset (`none`) or empty (`some ""`), a valid
cityId yields HTTP 500 ServerMisconfigured, the upstream query list is empty
(no network call), and the response is a fixed constant independent of the
credential, so the message cannot contain any credential value. -/
theorem c5_missing_credential (cityIdRaw nm : String)
    (hnm : lookupCity (jsToLowerCase cityIdRaw) = some nm)
    (apiKey : Option String) (hkey : apiKey = none ∨ apiKey = some "")
    (upstream : UpstreamQuery → AxiosResult) :
    getWeatherByCity cityIdRaw apiKey upstream =
      (some { status := 500,
              body := .err "伺服器設定錯誤" "請在 .env 檔案中設定 CWA_API_KEY" none }, []) := by
  have hne := lookupCity_values_ne_empty _ _ hnm
  rcases hkey with h | h <;> subst h <;>
    simp [getWeatherByCity, hnm, hne]

/-- Witness for C5 at `cityId = "taipei"` with both falsy credential values. -/
theorem c5_missing_credential_witness :
    getWeatherByCity "taipei" none (fun _ => .networkError "x") =
      (some { status := 500,
              body := .err "伺服器設定錯誤" "請在 .env 檔案中設定 CWA_API_KEY" none }, [])
    ∧ getWeatherByCity "taipei" (some "") (fun _ => .networkError "x") =
      (some { status := 500,
              body := .err "伺服器設定錯誤" "請在 .env 檔案中設定 CWA_API_KEY" none }, []) :=
  ⟨c5_missing_credential "taipei" "臺北市" (by decide) none (Or.inl rfl) _,
   c5_missing_credential "taipei" "臺北市" (by decide) (some "") (Or.inr rfl) _⟩

/-! ### C2, C9: upstream shape validation and the try/catch safety net -/

/-- Claim C2 counterexample: when `records.location` is absent (not merely
empty), `response.data.records.location[0]` throws a TypeError, the catch
block sees an error with no `.response`, and the handler replies with the
generic HTTP 500 envelope — not the claimed 404 NoData. -/
theorem c2_nodata_counterexample :
    getWeatherByCity "taipei" (some "key")
        (fun _ => .success { records := some { datasetDescription := "d", location := none } }) =
      (some genericServerError, [{ authorization := "key", locationName := "臺北市" }])
    ∧ genericServerError.status = 500
    ∧ ¬ genericServerError.status = 404 := by
  exact ⟨by decide, rfl, by decide⟩

/-- Claim C2 amended: for a valid cityId with a non-empty credential, an
upstream body whose `records.location` is present but an empty array yields
HTTP 404 NoData with the resolved location name embedded in the message;
when `records.location` is absent the access throws and the handler instead
replies with the generic HTTP 500 envelope. -/
theorem c2_nodata_amended (cityIdRaw nm key d : String)
    (hnm : lookupCity (jsToLowerCase cityIdRaw) = some nm) (hkey : key ≠ "") :
    (getWeatherByCity cityIdRaw (some key)
        (fun _ => .success { records := some { datasetDescription := d, location := some [] } }) =
      (some { status := 404,
              body := .err "查無資料" ("無法取得 " ++ nm ++ " 天氣資料") none },
       [{ authorization := key, locationName := nm }]))
    ∧ (getWeatherByCity cityIdRaw (some key)
        (fun _ => .success { records := some { datasetDescription := d, location := none } }) =
      (some genericServerError, [{ authorization := key, locationName := nm }]))
    ∧ (∃ pre post : String, "無法取得 " ++ nm ++ " 天氣資料" = pre ++ nm ++ post) := by
  refine ⟨?_, ?_, ⟨"無法取得 ", " 天氣資料", rfl⟩⟩
  · rw [getWeatherByCity_valid cityIdRaw nm key hnm hkey]
    rfl
  · rw [getWeatherByCity_valid cityIdRaw nm key hnm hkey]
    rfl

/-- Witness for C2 (amended) at `cityId = "taipei"`. -/
theorem c2_nodata_amended_witness :
    getWeatherByCity "taipei" (some "key")
        (fun _ => .success { records := some { datasetDescription := "d", location := some [] } }) =
      (some { status := 404,
              body := .err "查無資料" ("無法取得 " ++ "臺北市" ++ " 天氣資料") none },
       [{ authorization := "key", locationName := "臺北市" }]) :=
  (c2_nodata_amended "taipei" "臺北市" "key" "d" (by decide) (by decide)).1

/-- Claim C9: a successful upstream response with `records` absent, or with a
location record whose `weatherElement` array is empty, makes the reshaping
code throw; the surrounding try/catch turns this into the generic HTTP 500
envelope with only `error` and `message` fields (details = none). The handler
still produces a response (`some _`), so the process does not crash, and the
status is not the 404 NoData reply. -/
theorem c9_malformed_success_generic_500 (cityIdRaw nm key d ln : String)
    (hnm : lookupCity (jsToLowerCase cityIdRaw) = some nm) (hkey : key ≠ "") :
    (getWeatherByCity cityIdRaw (some key) (fun _ => .success { records := none }) =
      (some genericServerError, [{ authorization := key, locationName := nm }]))
    ∧ (getWeatherByCity cityIdRaw (some key)
        (fun _ => .success { records := some { datasetDescription := d, location := some [{ locationName := ln, weatherElement := [] }] } }) =
      (some genericServerError, [{ authorization := key, locationName := nm }]))
    ∧ genericServerError =
        { status := 500, body := .err "伺服器錯誤" "無法取得天氣資料，請稍後再試" none }
    ∧ ¬ genericServerError.status = 404 := by
  refine ⟨?_, ?_, rfl, by decide⟩
  · rw [getWeatherByCity_valid cityIdRaw nm key hnm hkey]
    rfl
  · rw [getWeatherByCity_valid cityIdRaw nm key hnm hkey]
    rfl

/-- Witness for C9 at `cityId = "taipei"`. -/
theorem c9_malformed_success_generic_500_witness :
    getWeatherByCity "taipei" (some "key") (fun _ => .success { records := none }) =
      (some genericServerError, [{ authorization := "key", locationName := "臺北市" }]) :=
  (c9_malformed_success_generic_500 "taipei" "臺北市" "key" "d" "ln"
    (by decide) (by decide)).1

/-! ### C6, C10: mapping of upstream/network failures -/

/-- Claim C6 counterexample: with an upstream 503 whose body has a `message`
field that is present but the empty string, the handler does not propagate
that present message; JavaScript `||` treats `""` as falsy, so the fixed
fallback string is returned instead. -/
theorem c6_upstream_error_counterexample :
    getWeatherByCity "taipei" (some "key")
        (fun _ => .httpError 503 (some { message := some "" })) =
      (some { status := 503,
              body := .err "CWA API 錯誤" "無法取得天氣資料" (some { message := some "" }) },
       [{ authorization := "key", locationName := "臺北市" }])
    ∧ ¬ ("無法取得天氣資料" = "") := by
  exact ⟨by decide, by decide⟩

/-- Claim C6 amended: on upstream failure with a response present, the handler
propagates the upstream status code, uses the body's `message` field as the
message when it is present and non-empty (JS truthiness) and the fixed
fallback otherwise, and puts the body verbatim under `details`; with no
response present it replies HTTP 500 with the generic retry-later envelope.
The two cases are distinguished solely by the presence of a response. -/
theorem c6_error_mapping_amended (cityIdRaw nm key : String)
    (hnm : lookupCity (jsToLowerCase cityIdRaw) = some nm) (hkey : key ≠ "") :
    (∀ st body, getWeatherByCity cityIdRaw (some key) (fun _ => .httpError st (some body)) =
        (some { status := st,
                body := .err "CWA API 錯誤" (jsOrStr body.message "無法取得天氣資料") (some body) },
         [{ authorization := key, locationName := nm }]))
    ∧ (∀ m, ¬ m = "" → jsOrStr (some m) "無法取得天氣資料" = m)
    ∧ jsOrStr (some "") "無法取得天氣資料" = "無法取得天氣資料"
    ∧ jsOrStr none "無法取得天氣資料" = "無法取得天氣資料"
    ∧ (∀ em, getWeatherByCity cityIdRaw (some key) (fun _ => .networkError em) =
        (some genericServerError, [{ authorization := key, locationName := nm }]))
    ∧ genericServerError =
        { status := 500, body := .err "伺服器錯誤" "無法取得天氣資料，請稍後再試" none } := by
  refine ⟨?_, ?_, rfl, rfl, ?_, rfl⟩
  · intro st body
    rw [getWeatherByCity_valid cityIdRaw nm key hnm hkey]
    rfl
  · intro m hm
    simp [jsOrStr, hm]
  · intro em
    rw [getWeatherByCity_valid cityIdRaw nm key hnm hkey]

/-- Witness for C6 (amended) at concrete inputs for both branches. -/
theorem c6_error_mapping_amended_witness :
    getWeatherByCity "taipei" (some "key")
        (fun _ => .httpError 503 (some { message := some "busy" })) =
      (some { status := 503,
              body := .err "CWA API 錯誤" (jsOrStr (some "busy") "無法取得天氣資料")
                (some { message := some "busy" }) },
       [{ authorization := "key", locationName := "臺北市" }])
    ∧ getWeatherByCity "taipei" (some "key") (fun _ => .networkError "ECONNREFUSED") =
      (some genericServerError, [{ authorization := "key", locationName := "臺北市" }]) := by
  have h := c6_error_mapping_amended "taipei" "臺北市" "key" (by decide) (by decide)
  exact ⟨h.1 503 { message := some "busy" }, h.2.2.2.2.1 "ECONNREFUSED"⟩

/-- Claim C10: the upstream-error branch crashes exactly when the error body
is null (`mapUpstreamError st none = none`); when the body is present the
returned message is the body's `message` field if present and truthy and the
fixed fallback otherwise, and `details` is the body verbatim. -/
theorem c10_error_branch_totality :
    (∀ st, mapUpstreamError st none = none)
    ∧ (∀ st body, mapUpstreamError st (some body) =
        some { status := st,
               body := .err "CWA API 錯誤" (jsOrStr body.message "無法取得天氣資料") (some body) })
    ∧ (∀ st data, (mapUpstreamError st data).isSome = data.isSome)
    ∧ (∀ m, ¬ m = "" → jsOrStr (some m) "無法取得天氣資料" = m)
    ∧ jsOrStr (some "") "無法取得天氣資料" = "無法取得天氣資料"
    ∧ jsOrStr none "無法取得天氣資料" = "無法取得天氣資料" := by
  refine ⟨fun st => rfl, fun st body => rfl, ?_, ?_, rfl, rfl⟩
  · intro st data
    cases data <;> rfl
  · intro m hm
    simp [jsOrStr, hm]

/-- Witness for C10 at concrete inputs. -/
theorem c10_error_branch_totality_witness :
    mapUpstreamError 503 none = none
    ∧ jsOrStr (some "busy") "無法取得天氣資料" = "busy" :=
  ⟨c10_error_branch_totality.1 503,
   c10_error_branch_totality.2.2.2.1 "busy" (by decide)⟩

theorem applyElement_startTime (fc : Forecast) (n p : String) :
    (applyElement fc n p).startTime = fc.startTime := by
  unfold applyElement
  split_ifs <;> rfl

theorem applyElement_endTime (fc : Forecast) (n p : String) :
    (applyElement fc n p).endTime = fc.endTime := by
  unfold applyElement
  split_ifs <;> rfl

theorem applyElement_weather (fc : Forecast) (n p : String) :
    (applyElement fc n p).weather = if n = "Wx" then p else fc.weather := by
  unfold applyElement
  split_ifs with h1 h2 h3 h4 h5 h6 <;> simp_all

theorem applyElement_rain (fc : Forecast) (n p : String) :
    (applyElement fc n p).rain = if n = "PoP" then p ++ "%" else fc.rain := by
  unfold applyElement
  split_ifs with h1 h2 h3 h4 h5 h6 <;> simp_all

theorem applyElement_minTemp (fc : Forecast) (n p : String) :
    (applyElement fc n p).minTemp = if n = "MinT" then p else fc.minTemp := by
  unfold applyElement
  split_ifs with h1 h2 h3 h4 h5 h6 <;> simp_all

theorem applyElement_maxTemp (fc : Forecast) (n p : String) :
    (applyElement fc n p).maxTemp = if n = "MaxT" then p else fc.maxTemp := by
  unfold applyElement
  split_ifs with h1 h2 h3 h4 h5 h6 <;> simp_all

theorem applyElement_comfort (fc : Forecast) (n p : String) :
    (applyElement fc n p).comfort = if n = "CI" then p else fc.comfort := by
  unfold applyElement
  split_ifs with h1 h2 h3 h4 h5 h6 <;> simp_all

theorem applyElement_windSpeed (fc : Forecast) (n p : String) :
    (applyElement fc n p).windSpeed = if n = "WS" then p else fc.windSpeed := by
  unfold applyElement
  split_ifs with h1 h2 h3 h4 h5 h6 <;> simp_all

theorem foldElems_startTime (i : Nat) (init : Forecast) (elems : List WeatherElement) :
    (foldElems i init elems).startTime = init.startTime := by
  induction elems generalizing init with
  | nil => rfl
  | cons e es ih =>
    rw [foldElems, List.foldl_cons, ← foldElems]
    rw [ih, applyElement_startTime]

theorem foldElems_endTime (i : Nat) (init : Forecast) (elems : List WeatherElement) :
    (foldElems i init elems).endTime = init.endTime := by
  induction elems generalizing init with
  | nil => rfl
  | cons e es ih =>
    rw [foldElems, List.foldl_cons, ← foldElems]
    rw [ih, applyElement_endTime]

/-- The `forEach` restricted to one scalar field: the final value of the field
selected by `tag` is obtained by replaying only the elements whose
`elementName` is `tag`, each overwriting the previous value. -/
theorem foldElems_field (f : Forecast → String) (tag : String) (tr : String → String)
    (happ : ∀ fc n p, f (applyElement fc n p) = if n = tag then tr p else f fc)
    (i : Nat) (init : Forecast) (elems : List WeatherElement) :
    f (foldElems i init elems) =
      (elems.filter (fun e => e.elementName == tag)).foldl
        (fun _ e => tr (pnAt e i)) (f init) := by
  induction elems generalizing init with
  | nil => rfl
  | cons e es ih =>
    rw [foldElems, List.foldl_cons, ← foldElems, ih, List.filter_cons]
    by_cases hc : e.elementName = tag
    · rw [happ, if_pos hc]
      simp [hc]
    · rw [happ, if_neg hc]
      simp [hc]


/-- When index `i` exists in every element's `time` array, the `forEach` does
not throw and computes the pure fold `foldElems`. -/
theorem forEachElems_ok (i : Nat) (elems : List WeatherElement)
    (h : ∀ e ∈ elems, i < e.time.length) (fc : Forecast) :
    forEachElems i fc elems = .ok (foldElems i fc elems) := by
  induction elems generalizing fc with
  | nil => rfl
  | cons e es ih =>
    have he : i < e.time.length := h e (List.mem_cons_self e es)
    have hg : e.time.get? i = some (e.time.get ⟨i, he⟩) := List.get?_eq_get he
    have hpn : pnAt e i = (e.time.get ⟨i, he⟩).parameter.parameterName := by
      simp only [pnAt, hg]
    simp only [forEachElems, hg]
    rw [ih (fun x hx => h x (List.mem_cons_of_mem e hx))]
    conv_rhs => rw [foldElems, List.foldl_cons, ← foldElems]
    rw [hpn]

/-- When index `i` exists in every element's `time` array and the element list
is non-empty, one `for`-loop iteration produces the pure slot. -/
theorem buildForecast_ok (first : WeatherElement) (restE : List WeatherElement)
    (i : Nat) (h : ∀ e ∈ first :: restE, i < e.time.length) :
    buildForecast (first :: restE) i =
      .ok (foldElems i (initSlot (timeAt first i)) (first :: restE)) := by
  have hf : i < first.time.length := h first (List.mem_cons_self first restE)
  have hg : first.time.get? i = some (first.time.get ⟨i, hf⟩) := List.get?_eq_get hf
  have ht : timeAt first i = first.time.get ⟨i, hf⟩ := by
    simp only [timeAt, hg, Option.getD_some]
  simp only [buildForecast, hg]
  rw [forEachElems_ok i (first :: restE) h]
  rw [ht]
  rfl

/-- Running `mapExcept` over a list where every computation succeeds. -/
theorem mapExcept_ok {α β : Type} (f : α → Except Unit β) (g : α → β) (l : List α)
    (h : ∀ x ∈ l, f x = .ok (g x)) : mapExcept f l = .ok (l.map g) := by
  induction l with
  | nil => rfl
  | cons x xs ih =>
    rw [mapExcept, h x (List.mem_cons_self x xs),
      ih (fun y hy => h y (List.mem_cons_of_mem x hy))]
    rfl

/-- Evaluating `processSuccess` on a well-formed body (location present, non-empty
element list, uniform `time` lengths): HTTP 200 with the reshaped slots. -/
theorem processSuccess_wf (nm : String) (body : UpstreamBody) (recs : Records)
    (locd : LocationData) (rest : List LocationData)
    (first : WeatherElement) (restE : List WeatherElement)
    (hrec : body.records = some recs) (hloc : recs.location = some (locd :: rest))
    (helems : locd.weatherElement = first :: restE)
    (hunif : ∀ e ∈ locd.weatherElement, e.time.length = first.time.length) :
    processSuccess nm body = .ok
      { status := 200,
        body := .success
          { city := locd.locationName,
            updateTime := recs.datasetDescription,
            forecasts := reshapedForecasts locd.weatherElement first } } := by
  have hok : ∀ i ∈ List.range first.time.length,
      buildForecast (first :: restE) i =
        .ok (foldElems i (initSlot (timeAt first i)) (first :: restE)) := by
    intro i hi
    have hi2 : i < first.time.length := List.mem_range.mp hi
    refine buildForecast_ok first restE i ?_
    intro e he
    rw [hunif e (helems ▸ he)]
    exact hi2
  simp only [processSuccess, hrec, hloc, List.head?_cons, helems]
  rw [mapExcept_ok (buildForecast (first :: restE))
    (fun i => foldElems i (initSlot (timeAt first i)) (first :: restE))
    (List.range first.time.length) hok]
  simp only [reshapedForecasts, helems]

/-! ### C1, C3, C7, C8: the happy-path reshaping pipeline -/

/-- Claim C1: for a well-formed upstream body whose first weather element has
N time entries (lengths uniform across elements, exactly one PoP element),
the handler replies success with exactly N slots; slot i copies
startTime/endTime from index i of the first element's time array, its rain
field is the PoP element's parameterName at index i with a literal `%`
appended, and slots are in upstream index order (slot i ↔ time index i). -/
theorem c1_reshaping (cityIdRaw nm key : String)
    (hnm : lookupCity (jsToLowerCase cityIdRaw) = some nm) (hkey : key ≠ "")
    (body : UpstreamBody) (recs : Records) (locd : LocationData) (rest : List LocationData)
    (first : WeatherElement) (restE : List WeatherElement) (popE : WeatherElement) (N : Nat)
    (hrec : body.records = some recs) (hloc : recs.location = some (locd :: rest))
    (helems : locd.weatherElement = first :: restE)
    (hN : first.time.length = N)
    (hunif : ∀ e ∈ locd.weatherElement, e.time.length = N)
    (hpop : locd.weatherElement.filter (fun e => e.elementName == "PoP") = [popE]) :
    ∃ wd : WeatherData,
      getWeatherByCity cityIdRaw (some key) (fun _ => .success body) =
        (some { status := 200, body := .success wd },
         [{ authorization := key, locationName := nm }])
      ∧ wd.forecasts.length = N
      ∧ (∀ i, i < N →
          ∃ fc t tp, wd.forecasts.get? i = some fc
            ∧ first.time.get? i = some t
            ∧ popE.time.get? i = some tp
            ∧ fc.startTime = t.startTime
            ∧ fc.endTime = t.endTime
            ∧ fc.rain = tp.parameter.parameterName ++ "%") := by
  have hunif2 : ∀ e ∈ locd.weatherElement, e.time.length = first.time.length := by
    intro e he
    rw [hunif e he]
    exact hN.symm
  have hps := processSuccess_wf nm body recs locd rest first restE hrec hloc helems hunif2
  refine ⟨{ city := locd.locationName, updateTime := recs.datasetDescription,
            forecasts := reshapedForecasts locd.weatherElement first }, ?_, ?_, ?_⟩
  · rw [getWeatherByCity_valid cityIdRaw nm key hnm hkey]
    simp only [hps]
  · simp [reshapedForecasts, hN]
  · intro i hi
    have hiN : i < first.time.length := by rw [hN]; exact hi
    have hget : (reshapedForecasts locd.weatherElement first).get? i =
        some (foldElems i (initSlot (timeAt first i)) locd.weatherElement) := by
      rw [reshapedForecasts, List.get?_map, List.get?_range hiN, Option.map_some']
    have ht : first.time.get? i = some (first.time.get ⟨i, hiN⟩) := List.get?_eq_get hiN
    have htimeAt : timeAt first i = first.time.get ⟨i, hiN⟩ := by
      simp only [timeAt, ht, Option.getD_some]
    have hpopmem : popE ∈ locd.weatherElement := by
      have hm : popE ∈ locd.weatherElement.filter (fun e => e.elementName == "PoP") := by
        rw [hpop]
        exact List.mem_singleton.mpr rfl
      exact List.mem_of_mem_filter hm
    have hpoplen : i < popE.time.length := by rw [hunif popE hpopmem]; exact hi
    have htp : popE.time.get? i = some (popE.time.get ⟨i, hpoplen⟩) := List.get?_eq_get hpoplen
    have hpn : pnAt popE i = (popE.time.get ⟨i, hpoplen⟩).parameter.parameterName := by
      simp only [pnAt, htp]
    refine ⟨_, _, _, hget, ht, htp, ?_, ?_, ?_⟩
    · rw [foldElems_startTime, htimeAt]
      rfl
    · rw [foldElems_endTime, htimeAt]
      rfl
    · rw [foldElems_field (fun fc => fc.rain) "PoP" (fun p => p ++ "%")
        (fun fc n p => applyElement_rain fc n p) i (initSlot (timeAt first i))
        locd.weatherElement, hpop, List.foldl_cons, List.foldl_nil, hpn]

/-- Witness for C1 at a concrete two-slot payload. -/
theorem c1_reshaping_witness :
    ∃ wd : WeatherData,
      getWeatherByCity "taipei" (some "k") (fun _ => .success sampleBody) =
        (some { status := 200, body := .success wd },
         [{ authorization := "k", locationName := "臺北市" }])
      ∧ wd.forecasts.length = 2 := by
  obtain ⟨wd, hresp, hlen, hslots⟩ := c1_reshaping "taipei" "臺北市" "k" (by decide)
    (by decide) sampleBody sampleRecords sampleLocation [] sampleWx [samplePoP, sampleUnknown]
    samplePoP 2 rfl rfl rfl rfl (by decide) (by decide)
  exact ⟨wd, hresp, hlen⟩

/-- Claim C3: any letter-case variant of a valid identifier passes validation;
the handler issues exactly one upstream query, whose locationName is the
table's mapped name for the lowercased key, and (on a well-formed upstream
success) replies with the success envelope. -/
theorem c3_valid_city_one_call (cityIdRaw nm key : String)
    (hnm : lookupCity (jsToLowerCase cityIdRaw) = some nm) (hkey : key ≠ "")
    (body : UpstreamBody) (recs : Records) (locd : LocationData) (rest : List LocationData)
    (first : WeatherElement) (restE : List WeatherElement)
    (hrec : body.records = some recs) (hloc : recs.location = some (locd :: rest))
    (helems : locd.weatherElement = first :: restE)
    (hunif : ∀ e ∈ locd.weatherElement, e.time.length = first.time.length) :
    ∃ wd : WeatherData,
      getWeatherByCity cityIdRaw (some key) (fun _ => .success body) =
        (some { status := 200, body := .success wd },
         [{ authorization := key, locationName := nm }]) := by
  have hps := processSuccess_wf nm body recs locd rest first restE hrec hloc helems hunif
  refine ⟨{ city := locd.locationName, updateTime := recs.datasetDescription,
            forecasts := reshapedForecasts locd.weatherElement first }, ?_⟩
  rw [getWeatherByCity_valid cityIdRaw nm key hnm hkey]
  simp only [hps]

/-- Witness for C3 at the mixed-case input `"TAIPEI"`. -/
theorem c3_valid_city_one_call_witness :
    ∃ wd : WeatherData,
      getWeatherByCity "TAIPEI" (some "k") (fun _ => .success sampleBody) =
        (some { status := 200, body := .success wd },
         [{ authorization := "k", locationName := "臺北市" }]) :=
  c3_valid_city_one_call "TAIPEI" "臺北市" "k" (by decide) (by decide) sampleBody
    sampleRecords sampleLocation [] sampleWx [samplePoP, sampleUnknown]
    rfl rfl rfl (by decide)

/-- Claim C7: a weather element whose tag is outside the fixed six-tag set
writes no slot field — the switch leaves the slot unchanged, and deleting
such an element from anywhere in the `forEach` list leaves every slot
unchanged; and each scalar slot field whose tag has no matching element in
the array keeps its initial empty-string value. -/
theorem c7_unknown_tags_ignored :
    (∀ fc n p, ¬ n ∈ ["Wx", "PoP", "MinT", "MaxT", "CI", "WS"] → applyElement fc n p = fc)
    ∧ (∀ i init elems1 elems2 e,
        ¬ e.elementName ∈ ["Wx", "PoP", "MinT", "MaxT", "CI", "WS"] →
        foldElems i init (elems1 ++ e :: elems2) = foldElems i init (elems1 ++ elems2))
    ∧ (∀ i t0 elems,
        ((∀ e ∈ elems, ¬ e.elementName = "Wx") →
          (foldElems i (initSlot t0) elems).weather = "")
        ∧ ((∀ e ∈ elems, ¬ e.elementName = "PoP") →
          (foldElems i (initSlot t0) elems).rain = "")
        ∧ ((∀ e ∈ elems, ¬ e.elementName = "MinT") →
          (foldElems i (initSlot t0) elems).minTemp = "")
        ∧ ((∀ e ∈ elems, ¬ e.elementName = "MaxT") →
          (foldElems i (initSlot t0) elems).maxTemp = "")
        ∧ ((∀ e ∈ elems, ¬ e.elementName = "CI") →
          (foldElems i (initSlot t0) elems).comfort = "")
        ∧ ((∀ e ∈ elems, ¬ e.elementName = "WS") →
          (foldElems i (initSlot t0) elems).windSpeed = "")) := by
  have happ : ∀ fc n p, ¬ n ∈ ["Wx", "PoP", "MinT", "MaxT", "CI", "WS"] →
      applyElement fc n p = fc := by
    intro fc n p hn
    simp only [List.mem_cons, List.not_mem_nil, or_false, not_or] at hn
    obtain ⟨h1, h2, h3, h4, h5, h6⟩ := hn
    simp [applyElement, h1, h2, h3, h4, h5, h6]
  have hnil : ∀ (tag : String) (elems : List WeatherElement),
      (∀ e ∈ elems, ¬ e.elementName = tag) →
      elems.filter (fun e => e.elementName == tag) = [] := by
    intro tag elems h
    rw [List.filter_eq_nil]
    intro a ha
    simp [h a ha]
  refine ⟨happ, ?_, ?_⟩
  · intro i init l1 l2 e he
    rw [foldElems, foldElems, List.foldl_append, List.foldl_append, List.foldl_cons]
    rw [happ _ _ _ he]
  · intro i t0 elems
    refine ⟨fun h => ?_, fun h => ?_, fun h => ?_, fun h => ?_, fun h => ?_, fun h => ?_⟩
    · rw [foldElems_field (fun fc => fc.weather) "Wx" (fun p => p)
        (fun fc n p => applyElement_weather fc n p), hnil _ _ h]
      rfl
    · rw [foldElems_field (fun fc => fc.rain) "PoP" (fun p => p ++ "%")
        (fun fc n p => applyElement_rain fc n p), hnil _ _ h]
      rfl
    · rw [foldElems_field (fun fc => fc.minTemp) "MinT" (fun p => p)
        (fun fc n p => applyElement_minTemp fc n p), hnil _ _ h]
      rfl
    · rw [foldElems_field (fun fc => fc.maxTemp) "MaxT" (fun p => p)
        (fun fc n p => applyElement_maxTemp fc n p), hnil _ _ h]
      rfl
    · rw [foldElems_field (fun fc => fc.comfort) "CI" (fun p => p)
        (fun fc n p => applyElement_comfort fc n p), hnil _ _ h]
      rfl
    · rw [foldElems_field (fun fc => fc.windSpeed) "WS" (fun p => p)
        (fun fc n p => applyElement_windSpeed fc n p), hnil _ _ h]
      rfl

/-- Witness for C7 at concrete inputs: the unknown tag `"Zz"` changes nothing,
and with only non-PoP elements the rain field stays empty. -/
theorem c7_unknown_tags_ignored_witness :
    applyElement (initSlot { startTime := "s", endTime := "e", parameter := { parameterName := "p" } }) "Zz" "q"
      = initSlot { startTime := "s", endTime := "e", parameter := { parameterName := "p" } }
    ∧ (foldElems 0 (initSlot { startTime := "s", endTime := "e", parameter := { parameterName := "p" } })
        [sampleWx, sampleUnknown]).rain = "" :=
  ⟨c7_unknown_tags_ignored.1 _ "Zz" "q" (by decide),
   (c7_unknown_tags_ignored.2.2 0 _ [sampleWx, sampleUnknown]).2.1 (by decide)⟩

/-- Claim C8: the pipeline is a pure function of the city identifier and the
upstream body — re-running it yields an identical result and identical
rendered ForecastResult JSON, and the response component does not depend on
the credential value (only the recorded outbound query does). -/
theorem c8_deterministic_pipeline (cityIdRaw : String) (body : UpstreamBody) (k1 k2 : String)
    (h1 : ¬ k1 = "") (h2 : ¬ k2 = "") :
    (getWeatherByCity cityIdRaw (some k1) (fun _ => .success body) =
     getWeatherByCity cityIdRaw (some k1) (fun _ => .success body))
    ∧ ((extractData (getWeatherByCity cityIdRaw (some k1) (fun _ => .success body)).1).map
         renderWeatherData =
       (extractData (getWeatherByCity cityIdRaw (some k1) (fun _ => .success body)).1).map
         renderWeatherData)
    ∧ ((getWeatherByCity cityIdRaw (some k1) (fun _ => .success body)).1 =
       (getWeatherByCity cityIdRaw (some k2) (fun _ => .success body)).1) := by
  refine ⟨rfl, rfl, ?_⟩
  cases hl : lookupCity (jsToLowerCase cityIdRaw) with
  | none => simp [getWeatherByCity, hl]
  | some nm =>
    cases hps : processSuccess nm body with
    | ok resp =>
      rw [getWeatherByCity_valid cityIdRaw nm k1 hl h1,
          getWeatherByCity_valid cityIdRaw nm k2 hl h2]
      simp only [hps]
    | error u =>
      rw [getWeatherByCity_valid cityIdRaw nm k1 hl h1,
          getWeatherByCity_valid cityIdRaw nm k2 hl h2]
      simp only [hps]

/-- Witness for C8 at a concrete payload and two distinct credentials. -/
theorem c8_deterministic_pipeline_witness :
    (getWeatherByCity "taipei" (some "k1") (fun _ => .success sampleBody)).1 =
    (getWeatherByCity "taipei" (some "k2") (fun _ => .success sampleBody)).1 :=
  (c8_deterministic_pipeline "taipei" sampleBody "k1" "k2" (by decide) (by decide)).2.2
